import Mathlib

/-!
Shallow embedding of `ZLAC8030L_CAN_controller/canopen_controller.py`
(class `MotorController`), together with theorems settling the spec claims.

Modelling conventions:
* Python scalar arguments are `PyVal` (exact `type(x) is int` checks become
  constructor matches); arguments that may be a Python `list` are `PyArg`.
* The canopen `Network` object is modelled by its observable session state:
  the node mapping (`nodes`, populated only by `add_node`, which this code
  never calls), the transport connection flag, and `scanner.nodes`.
* Bus side effects are logged as an explicit `Action` trace.
* Real time in `enableOperation` is modelled by an environment giving, per
  node, the observed `node.state` at the k-th check of the busy-wait loop
  and the `time.time()` reading at that check, in integer microseconds.
* Exceptions become explicit error values; `try/except/finally` control flow
  is translated explicitly in `initController`.
-/

namespace ZLAC

/-- Python scalar values, as far as this module inspects them.
`type(id) is int` is false for non-`int` values (including `bool`, whose
exact type is not `int`). -/
inductive PyVal where
  | int : Int → PyVal
  | str : String → PyVal
  | boolv : Bool → PyVal
  | pyNone : PyVal
deriving DecidableEq, Repr

/-- A Python argument that may or may not be a `list` (for the
`type(node_ids) is list` checks). -/
inductive PyArg where
  | list : List PyVal → PyArg
  | scalar : PyVal → PyArg
deriving DecidableEq, Repr

/-- Exceptions raised by `canopen_controller.py`, keyed by raise site. -/
inductive PyErr where
  | typeErrorOnlyIntegers                -- TypeError("Only integers are allowed for node ID")
  | nodeIdOutOfRange (id : Int)          -- Exception("Node ID {} is not in the range [0,127]")
  | nodeNotAvailable (id : Int)          -- Exception("Node ID {} is not available in {}")
  | transportError                       -- network.connect failed
  | livenessError                        -- network.check failed
  | notAList                             -- Exception("[enableOperation] node_ids should be a list ...")
  | enableNotInt (v : PyVal)             -- Exception("[enableOperation] Node ID {} is not int")
  | enableNodeUnavailable (id : Int)     -- Exception("Node ID {} is not available. Skipping ...")
  | stateTransitionTimeout (id : Int)    -- Exception("Timeout when trying to change state of node ID {}")
  | nmtWriteError (id : Int)             -- injected failure of `node.nmt.state = ...`
deriving DecidableEq, Repr

/-- Observable bus/transport side effects, in program order. -/
inductive Action where
  | connect
  | busCheck
  | scanSearch
  | nmtSetState (id : Int) (s : String)
  | nmtStopNodeGuarding (id : Int)
  | syncStop
  | disconnect
deriving DecidableEq, Repr

/-- Session state of the canopen `Network` object.
`nodes` is the network's node mapping (keys of the `MutableMapping`, in
iteration order); `scannerNodes` is `network.scanner.nodes` after `search()`.
Python truthiness of the mapping (`if self._network:`) is emptiness of
`nodes`. -/
structure Network where
  nodes : List Int
  connected : Bool
  scannerNodes : List Int
deriving DecidableEq, Repr

def opEnabled : String := "OPERATION ENABLED"

def preOperational : String := "PRE-OPERATIONAL"

/-- Exact `type(v) is int` check. -/
def PyVal.isInt : PyVal → Bool
  | PyVal.int _ => true
  | _ => false

/-- The expected-node validation loop of `MotorController.__init__`
(lines 74-86): for each entry, in order, exact-int check, then range check
`id < 0 or id > 127`, then membership in `scanner.nodes`.
Returns the first raised exception, or `none` when the loop completes. -/
def validateIds : List PyVal → List Int → Option PyErr
  | [], _ => none
  | v :: rest, disc =>
    match v with
    | PyVal.int id =>
        if id < 0 ∨ 127 < id then some (PyErr.nodeIdOutOfRange id)
        else if id ∈ disc then validateIds rest disc
        else some (PyErr.nodeNotAvailable id)
    | _ => some PyErr.typeErrorOnlyIntegers

/-- All entries are exact ints. -/
def allInts (ids : List PyVal) : Bool := ids.all PyVal.isInt

/-- All int entries pass the source's range check. -/
def allInRange (ids : List PyVal) : Bool :=
  ids.all fun v =>
    match v with
    | PyVal.int n => !decide (n < 0 ∨ 127 < n)
    | _ => true

/-- Some int entry is absent from the discovered set. -/
def hasMissing (ids : List PyVal) (disc : List Int) : Bool :=
  ids.any fun v =>
    match v with
    | PyVal.int n => decide (n ∉ disc)
    | _ => false

/-- Some int entry fails the source's range check. -/
def hasOutOfRange (ids : List PyVal) : Bool :=
  ids.any fun v =>
    match v with
    | PyVal.int n => decide (n < 0 ∨ 127 < n)
    | _ => false

/-- Every in-range int entry is present in the discovered set. -/
def inRangePresent (ids : List PyVal) (disc : List Int) : Bool :=
  ids.all fun v =>
    match v with
    | PyVal.int n => decide ((n < 0 ∨ 127 < n) ∨ n ∈ disc)
    | _ => true

/-- Some entry is not an exact int. -/
def hasNonInt (ids : List PyVal) : Bool := ids.any fun v => !v.isInt

/-- Every int entry is in range and present in the discovered set. -/
def intsAllPresent (ids : List PyVal) (disc : List Int) : Bool :=
  ids.all fun v =>
    match v with
    | PyVal.int n => !decide (n < 0 ∨ 127 < n) && decide (n ∈ disc)
    | _ => true

/-- The teardown loop shared by `disconnectNetwork` (lines 113-119) and the
`finally` block of `__init__` (lines 97-103): for the FIRST node of the
mapping it sets NMT state to PRE-OPERATIONAL (which may raise; the raise
propagates since there is no handler), stops its node guarding, stops the
sync producer, disconnects the transport and `return`s.  Remaining nodes
are never reached.  An empty mapping falls through with no effect. -/
def teardownLoop (nmtFails : Int → Bool) (net : Network) :
    List Int → Except PyErr Unit × List Action × Network
  | [] => (Except.ok (), [], net)
  | id :: _ =>
      if nmtFails id then
        (Except.error (PyErr.nmtWriteError id),
         [Action.nmtSetState id preOperational], net)
      else
        (Except.ok (),
         [Action.nmtSetState id preOperational, Action.nmtStopNodeGuarding id,
          Action.syncStop, Action.disconnect],
         { net with connected := false })

/-- `MotorController.disconnectNetwork` (lines 107-119): guarded by the
truthiness of the network mapping, then the teardown loop. -/
def disconnectNetwork (nmtFails : Int → Bool) (net : Network) :
    Except PyErr Unit × List Action × Network :=
  if net.nodes.isEmpty then (Except.ok (), [], net)
  else teardownLoop nmtFails net net.nodes

/-- Environment for `__init__`: which transport steps fail, and what the
scanner discovers. -/
structure InitEnv where
  connectFails : Bool
  checkFails : Bool
  discovered : List Int
deriving DecidableEq, Repr

/-- The `try` block of `__init__` (lines 63-86): connect, liveness check,
scanner search (+ settle sleep), then optional expected-node validation.
Returns the raised exception (if any), the bus actions performed, and the
network state reached. -/
def initTryBody (ienv : InitEnv) (node_ids : Option (List PyVal)) :
    Option PyErr × List Action × Network :=
  let net0 : Network := { nodes := [], connected := false, scannerNodes := [] }
  if ienv.connectFails then (some PyErr.transportError, [], net0)
  else
    let net1 : Network := { net0 with connected := true }
    if ienv.checkFails then (some PyErr.livenessError, [Action.connect], net1)
    else
      let net2 : Network := { net1 with scannerNodes := ienv.discovered }
      let acts := [Action.connect, Action.busCheck, Action.scanSearch]
      match node_ids with
      | none => (none, acts, net2)
      | some ids => (validateIds ids ienv.discovered, acts, net2)

/-- Outcome of running `MotorController.__init__`. -/
structure InitOutcome where
  propagated : Option PyErr
  swallowed : Option PyErr
  actions : List Action
  net : Network
deriving DecidableEq, Repr

/-- `MotorController.__init__` (lines 42-105).  The `except Exception`
handler (lines 88-92) catches every exception from the try block (including
the TypeError) and only logs it, so nothing propagates; the `finally` block
(lines 93-103) then runs the same code as `disconnectNetwork`.  Since this
module never calls `add_node`, the network mapping is empty, the mapping is
falsy, and the finally-block teardown loop never executes. -/
def initController (ienv : InitEnv) (node_ids : Option (List PyVal)) : InitOutcome :=
  match initTryBody ienv node_ids with
  | (err, acts, net) =>
      match disconnectNetwork (fun _ => false) net with
      | (_, facts, net2) =>
          { propagated := none, swallowed := err, actions := acts ++ facts, net := net2 }

/-- Result of the busy-wait loop of `enableOperation` (lines 158-160):
success leaving the loop at check `n`, or the timeout exception raised at
check `n`. -/
inductive PollResult where
  | success : ℕ → PollResult
  | timeoutRaise : ℕ → PollResult
deriving DecidableEq, Repr

/-- Deadline of the state-transition wait: 15 s, in microseconds. -/
def deadlineUs : ℕ := 15000000

/-- The `time.sleep(0.001)` interval of the source, in microseconds.
In the source this sleep sits AFTER the while loop (executed once per node
after a successful wait), not inside it, so the loop itself busy-polls. -/
def pollIntervalUs : ℕ := 1000

/-- The `while node.state != 'OPERATION ENABLED'` loop of `enableOperation`:
at check `n` it reads `obs n`; if it matches it leaves the loop, otherwise
if `time.time() > timeout` (strictly) it raises, otherwise it iterates.
`fuel` bounds the number of modelled iterations; `none` means the loop was
still running after `fuel` checks. -/
def pollLoop (obs : ℕ → String) (tm : ℕ → ℕ) (deadline : ℕ) (fuel n : ℕ) :
    Option PollResult :=
  match fuel with
  | 0 => none
  | fuel' + 1 =>
      if obs n = opEnabled then some (PollResult.success n)
      else if deadline < tm n then some (PollResult.timeoutRaise n)
      else pollLoop obs tm deadline fuel' (n + 1)

/-- Timing/observation environment for `enableOperation`: per node id, the
observed `node.state` at the k-th check, the `time.time()` reading at the
k-th check, and the `time.time()` reading taken when the 15 s timeout is
computed (line 156, immediately before the state request on line 157). -/
structure EnableEnv where
  obs : Int → ℕ → String
  tm : Int → ℕ → ℕ
  tStart : Int → ℕ

/-- One iteration of the `for id in node_ids` body of `enableOperation`
(lines 147-161): exact-int check, membership in the network mapping, then
the state request and the busy-wait loop.  On success returns the node id
with the `node.state` value observed at loop exit (the Registry's recorded
operational state). -/
def enableNode (net : Network) (env : EnableEnv) (fuel : ℕ) (v : PyVal) :
    Option (Except PyErr (Int × String)) :=
  match v with
  | PyVal.int id =>
      if id ∈ net.nodes then
        match pollLoop (env.obs id) (env.tm id) (env.tStart id + deadlineUs) fuel 0 with
        | none => none
        | some (PollResult.success n) => some (Except.ok (id, env.obs id n))
        | some (PollResult.timeoutRaise _) =>
            some (Except.error (PyErr.stateTransitionTimeout id))
      else some (Except.error (PyErr.enableNodeUnavailable id))
  | _ => some (Except.error (PyErr.enableNotInt v))

/-- The `for id in node_ids` loop of `enableOperation`: nodes processed in
order, the first raised exception aborts the rest. -/
def enableList (net : Network) (env : EnableEnv) (fuel : ℕ) :
    List PyVal → Option (Except PyErr (List (Int × String)))
  | [] => some (Except.ok [])
  | v :: rest =>
      match enableNode net env fuel v with
      | none => none
      | some (Except.error e) => some (Except.error e)
      | some (Except.ok p) =>
          match enableList net env fuel rest with
          | none => none
          | some (Except.error e) => some (Except.error e)
          | some (Except.ok ps) => some (Except.ok (p :: ps))

/-- `MotorController.enableOperation` (lines 135-161): `type(node_ids) is
list` check, then the per-node loop. -/
def enableOperation (net : Network) (env : EnableEnv) (fuel : ℕ)
    (node_ids : PyArg) : Option (Except PyErr (List (Int × String))) :=
  match node_ids with
  | PyArg.list xs => enableList net env fuel xs
  | PyArg.scalar _ => some (Except.error PyErr.notAList)

/-- `MotorController.setNMTPreOperation` (lines 121-133): the list type
check, then `TODO Needs implementation` — the body does nothing. -/
def setNMTPreOperation (net : Network) (node_ids : PyArg) :
    Except PyErr Unit × List Action × Network :=
  match node_ids with
  | PyArg.list _ => (Except.ok (), [], net)
  | PyArg.scalar _ => (Except.error PyErr.notAList, [], net)

/-- `MotorController.getOperationStatus` (lines 163-177): stub, `pass`
returns `None` with no validation and no bus traffic. -/
def getOperationStatus (net : Network) (node_id : PyVal) :
    Except PyErr PyVal × List Action :=
  (Except.ok PyVal.pyNone, [])

/-- `MotorController.getNMTStatus` (lines 179-193): stub, returns `None`. -/
def getNMTStatus (net : Network) (node_id : PyVal) :
    Except PyErr PyVal × List Action :=
  (Except.ok PyVal.pyNone, [])

/-- `MotorController.getVelocity` (lines 195-209): stub, returns `None`. -/
def getVelocity (net : Network) (node_id : PyVal) :
    Except PyErr PyVal × List Action :=
  (Except.ok PyVal.pyNone, [])

/-- `MotorController.getEncoder` (lines 211-225): stub, returns `None`. -/
def getEncoder (net : Network) (node_id : PyVal) :
    Except PyErr PyVal × List Action :=
  (Except.ok PyVal.pyNone, [])

/-- `MotorController.setTargetVelocity` (lines 227-238): stub, returns
`None`. -/
def setTargetVelocity (net : Network) (node_id : PyVal) (vel : PyVal) :
    Except PyErr PyVal × List Action :=
  (Except.ok PyVal.pyNone, [])

/-- Concrete session for witnesses: one discovered and registered node, 2. -/
def wNet : Network := { nodes := [2], connected := true, scannerNodes := [2] }

/-- Witness environment for the timeout claim: node state is never
OPERATION ENABLED, checks happen every 1000 us starting at time 0. -/
def wEnv : EnableEnv :=
  { obs := fun _ _ => "SWITCHED ON"
    tm := fun _ k => 1000 * k
    tStart := fun _ => 0 }

/-- Witness environment for the immediate-success claim: node state is
already OPERATION ENABLED at the first check. -/
def gEnv : EnableEnv :=
  { obs := fun _ _ => opEnabled
    tm := fun _ k => 1000 * k
    tStart := fun _ => 0 }

/-- C1: refuted by the code — on a configuration where connect and the
liveness check succeed, the scanner discovers nodes 2 and 3, and the caller
supplies expected node_ids = [5], the constructor raises the not-available
exception internally but the `except` handler swallows it (nothing
propagates to the caller), and the transport is left CONNECTED: the
finally-block teardown never disconnects because the network mapping is
empty.  This contradicts the claim that construction failures propagate and
leave a fully disconnected state. -/
theorem C1_initFailureSwallowed :
    (initController { connectFails := false, checkFails := false, discovered := [2, 3] }
        (some [PyVal.int 5])).swallowed = some (PyErr.nodeNotAvailable 5) ∧
    (initController { connectFails := false, checkFails := false, discovered := [2, 3] }
        (some [PyVal.int 5])).propagated = none ∧
    (initController { connectFails := false, checkFails := false, discovered := [2, 3] }
        (some [PyVal.int 5])).net.connected = true ∧
    Action.disconnect ∉
      (initController { connectFails := false, checkFails := false, discovered := [2, 3] }
        (some [PyVal.int 5])).actions := by
  refine ⟨rfl, rfl, rfl, ?_⟩
  decide

/-- C2 counterexample: with three registered nodes [2, 3, 5] and no teardown
failure, `disconnectNetwork` never touches nodes 3 and 5 (the `return`
sits inside the for loop); and when the first node's NMT-state write fails,
the exception propagates and the transport is never disconnected.  Both
refute the claimed total, best-effort teardown. -/
theorem C2_counterexample :
    (Action.nmtSetState 3 preOperational ∉
      (disconnectNetwork (fun _ => false)
        { nodes := [2, 3, 5], connected := true, scannerNodes := [2, 3, 5] }).2.1) ∧
    (Action.nmtSetState 5 preOperational ∉
      (disconnectNetwork (fun _ => false)
        { nodes := [2, 3, 5], connected := true, scannerNodes := [2, 3, 5] }).2.1) ∧
    ((disconnectNetwork (fun i => decide (i = 2))
        { nodes := [2, 3, 5], connected := true, scannerNodes := [2, 3, 5] }).1 =
      Except.error (PyErr.nmtWriteError 2)) ∧
    (Action.disconnect ∉
      (disconnectNetwork (fun i => decide (i = 2))
        { nodes := [2, 3, 5], connected := true, scannerNodes := [2, 3, 5] }).2.1) ∧
    ((disconnectNetwork (fun i => decide (i = 2))
        { nodes := [2, 3, 5], connected := true, scannerNodes := [2, 3, 5] }).2.2.connected
      = true) := by
  refine ⟨?_, ?_, rfl, ?_, rfl⟩ <;> decide

/-- C2 amended: `disconnectNetwork` on a session with at least one
registered node processes only the FIRST node: it sets that node's NMT
state to PRE-OPERATIONAL, stops its node guarding, stops the sync producer,
disconnects the transport and returns, leaving every other registered node
untouched; if the first node's NMT-state write fails, that exception
propagates to the caller and the sync stop and transport disconnect never
happen. -/
theorem C2_firstNodeOnlyTeardown (nmtFails : Int → Bool) (id : Int)
    (rest : List Int) (conn : Bool) (sn : List Int) :
    disconnectNetwork nmtFails { nodes := id :: rest, connected := conn, scannerNodes := sn } =
      if nmtFails id then
        (Except.error (PyErr.nmtWriteError id),
         [Action.nmtSetState id preOperational],
         { nodes := id :: rest, connected := conn, scannerNodes := sn })
      else
        (Except.ok (),
         [Action.nmtSetState id preOperational, Action.nmtStopNodeGuarding id,
          Action.syncStop, Action.disconnect],
         { nodes := id :: rest, connected := false, scannerNodes := sn }) := by
  cases h : nmtFails id <;> simp [disconnectNetwork, teardownLoop, h]

/-- C6: refuted by the code — for the out-of-range node id 200, the five
command/telemetry operations are `pass` stubs that return `None` with no
validation, no error and no bus traffic, and `enableOperation` rejects 200
only through the membership ("not available") exception, not a range check.
No InvalidNodeId-style range validation exists outside `__init__`. -/
theorem C6_stubsSkipValidation :
    getEncoder wNet (PyVal.int 200) = (Except.ok PyVal.pyNone, []) ∧
    getVelocity wNet (PyVal.int 200) = (Except.ok PyVal.pyNone, []) ∧
    getNMTStatus wNet (PyVal.int 200) = (Except.ok PyVal.pyNone, []) ∧
    getOperationStatus wNet (PyVal.int 200) = (Except.ok PyVal.pyNone, []) ∧
    setTargetVelocity wNet (PyVal.int 200) (PyVal.int 0) = (Except.ok PyVal.pyNone, []) ∧
    enableOperation wNet wEnv 1 (PyArg.list [PyVal.int 200]) =
      some (Except.error (PyErr.enableNodeUnavailable 200)) :=
  ⟨rfl, rfl, rfl, rfl, rfl, rfl⟩

/-- C7: refuted by the code — node 99 was never discovered (it is not in
the session's node mapping), yet `getEncoder(99)` is a `pass` stub that
silently returns `None`: no UnknownNode-style error is raised, and the
other telemetry accessors behave the same way. -/
theorem C7_unknownNodeSilentNone :
    (99 : Int) ∉ wNet.nodes ∧
    getEncoder wNet (PyVal.int 99) = (Except.ok PyVal.pyNone, []) ∧
    getVelocity wNet (PyVal.int 99) = (Except.ok PyVal.pyNone, []) ∧
    getNMTStatus wNet (PyVal.int 99) = (Except.ok PyVal.pyNone, []) ∧
    getOperationStatus wNet (PyVal.int 99) = (Except.ok PyVal.pyNone, []) :=
  ⟨by decide, rfl, rfl, rfl, rfl⟩

/-- C8 counterexample: an expected node id of 0 is NOT rejected as out of
range — the source's range check is `id < 0 or id > 127`, so 0 passes:
with 0 in the discovered set validation succeeds outright, and with 0
absent it fails with the not-available error, never the range error.
Moreover the telemetry stub `getVelocity` performs no range validation
before an operation at all. -/
theorem C8_counterexample :
    validateIds [PyVal.int 0] [0] = none ∧
    validateIds [PyVal.int 0] [] = some (PyErr.nodeNotAvailable 0) ∧
    getVelocity wNet (PyVal.int 200) = (Except.ok PyVal.pyNone, []) :=
  ⟨rfl, rfl, rfl⟩

/-- C9: `setNMTPreOperation` with ANY list argument — whatever its
contents — returns successfully, performs no per-id validation, issues no
NMT command or any other bus action, and leaves the network state
unchanged; any non-list argument raises the list-type exception, likewise
with no effect. -/
theorem C9_setNMTPreOperationNoOp (net : Network) (xs : List PyVal) (v : PyVal) :
    setNMTPreOperation net (PyArg.list xs) = (Except.ok (), [], net) ∧
    setNMTPreOperation net (PyArg.scalar v) = (Except.error PyErr.notAList, [], net) :=
  ⟨rfl, rfl⟩

/-- C10: `disconnectNetwork` on a session with no registered nodes performs
no teardown action at all — in particular it never calls the transport
disconnect — and returns the network state unchanged (a connected transport
stays connected). -/
theorem C10_disconnectEmptyRegistryNoOp (nmtFails : Int → Bool) (conn : Bool)
    (sn : List Int) :
    disconnectNetwork nmtFails { nodes := [], connected := conn, scannerNodes := sn } =
      (Except.ok (), [], { nodes := [], connected := conn, scannerNodes := sn }) :=
  rfl

theorem validateIds_none_iff (ids : List PyVal) (disc : List Int) :
    validateIds ids disc = none ↔
      ∀ v ∈ ids, ∃ n : Int, v = PyVal.int n ∧ 0 ≤ n ∧ n ≤ 127 ∧ n ∈ disc := by
  induction ids with
  | nil => simp [validateIds]
  | cons v rest ih =>
    cases v with
    | int n =>
      by_cases h1 : n < 0 ∨ 127 < n
      · refine iff_of_false (by simp [validateIds, h1]) ?_
        intro h
        rcases h (PyVal.int n) (List.mem_cons_self _ _) with ⟨m, hm, h0, h127, -⟩
        injection hm with hnm
        omega
      · by_cases h2 : n ∈ disc
        · rw [show validateIds (PyVal.int n :: rest) disc = validateIds rest disc by
            simp [validateIds, h1, h2], ih]
          constructor
          · intro h w hw
            rcases List.mem_cons.mp hw with hw | hw
            · exact ⟨n, hw, by omega, by omega, h2⟩
            · exact h w hw
          · intro h w hw
            exact h w (List.mem_cons_of_mem _ hw)
        · refine iff_of_false (by simp [validateIds, h1, h2]) ?_
          intro h
          rcases h (PyVal.int n) (List.mem_cons_self _ _) with ⟨m, hm, -, -, hd⟩
          injection hm with hnm
          exact h2 (hnm ▸ hd)
    | str s =>
      refine iff_of_false (by simp [validateIds]) ?_
      intro h
      rcases h (PyVal.str s) (List.mem_cons_self _ _) with ⟨m, hm, -⟩
      exact PyVal.noConfusion hm
    | boolv b =>
      refine iff_of_false (by simp [validateIds]) ?_
      intro h
      rcases h (PyVal.boolv b) (List.mem_cons_self _ _) with ⟨m, hm, -⟩
      exact PyVal.noConfusion hm
    | pyNone =>
      refine iff_of_false (by simp [validateIds]) ?_
      intro h
      rcases h PyVal.pyNone (List.mem_cons_self _ _) with ⟨m, hm, -⟩
      exact PyVal.noConfusion hm

theorem validateIds_missing (ids : List PyVal) (disc : List Int)
    (hint : allInts ids = true) (hrange : allInRange ids = true)
    (hmiss : hasMissing ids disc = true) :
    ∃ m : Int, validateIds ids disc = some (PyErr.nodeNotAvailable m) ∧ m ∉ disc := by
  induction ids with
  | nil => simp [hasMissing] at hmiss
  | cons v rest ih =>
    cases v with
    | int n =>
      have hint' : allInts rest = true := by
        simpa [allInts, PyVal.isInt] using hint
      have hr := hrange
      simp [allInRange] at hr
      have h1 : ¬(n < 0 ∨ 127 < n) := by
        have := hr.1
        omega
      have hrange' : allInRange rest = true := by
        simp [allInRange]
        exact hr.2
      by_cases h2 : n ∈ disc
      · have hmiss' : hasMissing rest disc = true := by
          have := hmiss
          simp [hasMissing] at this ⊢
          rcases this with h | h
          · exact absurd h2 h
          · exact h
        rcases ih hint' hrange' hmiss' with ⟨m, hv, hm⟩
        exact ⟨m, by simp [validateIds, h1, h2, hv], hm⟩
      · exact ⟨n, by simp [validateIds, h1, h2], h2⟩
    | str s => simp [allInts, PyVal.isInt] at hint
    | boolv b => simp [allInts, PyVal.isInt] at hint
    | pyNone => simp [allInts, PyVal.isInt] at hint

theorem validateIds_outOfRange (ids : List PyVal) (disc : List Int)
    (hint : allInts ids = true) (hoor : hasOutOfRange ids = true)
    (hpres : inRangePresent ids disc = true) :
    ∃ m : Int, validateIds ids disc = some (PyErr.nodeIdOutOfRange m) ∧
      (m < 0 ∨ 127 < m) := by
  induction ids with
  | nil => simp [hasOutOfRange] at hoor
  | cons v rest ih =>
    cases v with
    | int n =>
      have hint' : allInts rest = true := by
        simpa [allInts, PyVal.isInt] using hint
      by_cases h1 : n < 0 ∨ 127 < n
      · exact ⟨n, by simp [validateIds, h1], h1⟩
      · have h2 : n ∈ disc := by
          have := hpres
          simp [inRangePresent] at this
          rcases this.1 with h | h
          · exact absurd h h1
          · exact h
        have hoor' : hasOutOfRange rest = true := by
          have := hoor
          simp [hasOutOfRange] at this ⊢
          rcases this with h | h
          · exact absurd h h1
          · exact h
        have hpres' : inRangePresent rest disc = true := by
          have := hpres
          simp [inRangePresent] at this ⊢
          exact this.2
        rcases ih hint' hoor' hpres' with ⟨m, hv, hm⟩
        exact ⟨m, by simp [validateIds, h1, h2, hv], hm⟩
    | str s => simp [allInts, PyVal.isInt] at hint
    | boolv b => simp [allInts, PyVal.isInt] at hint
    | pyNone => simp [allInts, PyVal.isInt] at hint

theorem validateIds_nonInt (ids : List PyVal) (disc : List Int)
    (hnon : hasNonInt ids = true) (hval : intsAllPresent ids disc = true) :
    validateIds ids disc = some PyErr.typeErrorOnlyIntegers := by
  induction ids with
  | nil => simp [hasNonInt] at hnon
  | cons v rest ih =>
    cases v with
    | int n =>
      have hnon' : hasNonInt rest = true := by
        simpa [hasNonInt, PyVal.isInt] using hnon
      have hv := hval
      simp [intsAllPresent] at hv
      have h1 : ¬(n < 0 ∨ 127 < n) := by
        have := hv.1.1
        omega
      have h2 : n ∈ disc := hv.1.2
      have hval' : intsAllPresent rest disc = true := by
        simp [intsAllPresent]
        exact hv.2
      simp [validateIds, h1, h2]
      exact ih hnon' hval'
    | str s => simp [validateIds]
    | boolv b => simp [validateIds]
    | pyNone => simp [validateIds]

/-- C3: discovery validation with a supplied expected list is exhaustive and
all-or-nothing: it succeeds iff every expected entry is an integer in
[0,127] present in the discovered set; an expected in-range integer id
missing from the discovered set makes validation fail with the
not-available (NodeNotFound-style) error; an out-of-range integer id makes
it fail with the range (InvalidNodeId-style) error; a non-integer entry
makes it fail with the integer TypeError; and in every case the session's
node Registry (the network node mapping) stays empty — discovery never
partially populates it. -/
theorem C3_discoveryAllOrNothing (ids : List PyVal) (disc : List Int) :
    (validateIds ids disc = none ↔
       ∀ v ∈ ids, ∃ n : Int, v = PyVal.int n ∧ 0 ≤ n ∧ n ≤ 127 ∧ n ∈ disc) ∧
    (allInts ids = true → allInRange ids = true → hasMissing ids disc = true →
       ∃ m : Int, validateIds ids disc = some (PyErr.nodeNotAvailable m) ∧ m ∉ disc) ∧
    (allInts ids = true → hasOutOfRange ids = true → inRangePresent ids disc = true →
       ∃ m : Int, validateIds ids disc = some (PyErr.nodeIdOutOfRange m) ∧
         (m < 0 ∨ 127 < m)) ∧
    (hasNonInt ids = true → intsAllPresent ids disc = true →
       validateIds ids disc = some PyErr.typeErrorOnlyIntegers) ∧
    (initController { connectFails := false, checkFails := false, discovered := disc }
        (some ids)).net.nodes = [] := by
  refine ⟨validateIds_none_iff ids disc, ?_, ?_, ?_, rfl⟩
  · intro h1 h2 h3
    exact validateIds_missing ids disc h1 h2 h3
  · intro h1 h2 h3
    exact validateIds_outOfRange ids disc h1 h2 h3
  · intro h1 h2
    exact validateIds_nonInt ids disc h1 h2

/-- C3 witness: the spec's concrete scenario — expected nodes {2,3,5},
discovered nodes {2,3} — fails with the not-available error and the node
Registry stays empty. -/
theorem C3_discoveryAllOrNothing_witness :
    allInts [PyVal.int 2, PyVal.int 3, PyVal.int 5] = true ∧
    allInRange [PyVal.int 2, PyVal.int 3, PyVal.int 5] = true ∧
    hasMissing [PyVal.int 2, PyVal.int 3, PyVal.int 5] [2, 3] = true ∧
    (∃ m : Int,
      validateIds [PyVal.int 2, PyVal.int 3, PyVal.int 5] [2, 3] =
        some (PyErr.nodeNotAvailable m) ∧ m ∉ ([2, 3] : List Int)) ∧
    (initController { connectFails := false, checkFails := false, discovered := [2, 3] }
        (some [PyVal.int 2, PyVal.int 3, PyVal.int 5])).net.nodes = [] :=
  ⟨by decide, by decide, by decide,
   (C3_discoveryAllOrNothing [PyVal.int 2, PyVal.int 3, PyVal.int 5] [2, 3]).2.1
     (by decide) (by decide) (by decide),
   (C3_discoveryAllOrNothing [PyVal.int 2, PyVal.int 3, PyVal.int 5] [2, 3]).2.2.2.2⟩

/-- C8 amended: the discovery validation range check accepts exactly the
integers in [0,127] — a range error is only ever reported for an id
strictly below 0 or above 127, so id 0 is never range-rejected: a lone
expected id 0 validates fully when 0 was discovered and fails only with the
not-available error otherwise.  Outside discovery no range validation
happens at all (the telemetry stub returns None for any argument). -/
theorem C8_rangeCheckAcceptsZero (ids : List PyVal) (disc : List Int) :
    (∀ m : Int, validateIds ids disc = some (PyErr.nodeIdOutOfRange m) →
       m < 0 ∨ 127 < m) ∧
    validateIds ids disc ≠ some (PyErr.nodeIdOutOfRange 0) ∧
    (validateIds [PyVal.int 0] disc =
      if 0 ∈ disc then none else some (PyErr.nodeNotAvailable 0)) ∧
    (∀ net : Network, ∀ v : PyVal, getVelocity net v = (Except.ok PyVal.pyNone, [])) := by
  have key : ∀ m : Int, validateIds ids disc = some (PyErr.nodeIdOutOfRange m) →
      m < 0 ∨ 127 < m := by
    induction ids with
    | nil => intro m h; cases h
    | cons v rest ih =>
      intro m h
      cases v with
      | int n =>
        by_cases h1 : n < 0 ∨ 127 < n
        · simp [validateIds, h1] at h
          rcases h with ⟨h, -⟩
          omega
        · by_cases h2 : n ∈ disc
          · simp [validateIds, h1, h2] at h
            exact ih m h
          · simp [validateIds, h1, h2] at h
      | str s => simp [validateIds] at h
      | boolv b => simp [validateIds] at h
      | pyNone => simp [validateIds] at h
  refine ⟨key, ?_, ?_, fun _ _ => rfl⟩
  · intro h
    have := key 0 h
    omega
  · have h1 : ¬((0 : Int) < 0 ∨ (127 : Int) < 0) := by omega
    by_cases h2 : (0 : Int) ∈ disc
    · simp [validateIds, h1, h2]
    · simp [validateIds, h1, h2]

/-- C8 amended witness: a lone expected id 0, with 0 discovered, passes
validation outright. -/
theorem C8_rangeCheckAcceptsZero_witness :
    validateIds [PyVal.int 0] [0] =
      if (0 : Int) ∈ ([0] : List Int) then none
      else some (PyErr.nodeNotAvailable 0) :=
  (C8_rangeCheckAcceptsZero [PyVal.int 0] [0]).2.2.1

theorem pollLoop_success_at (obs : ℕ → String) (tm : ℕ → ℕ) (deadline f n : ℕ)
    (h : obs n = opEnabled) :
    pollLoop obs tm deadline (f + 1) n = some (PollResult.success n) := by
  simp [pollLoop, h]

theorem pollLoop_timeout_aux (obs : ℕ → String) (tm : ℕ → ℕ) (deadline : ℕ) :
    ∀ m j : ℕ,
      (∀ k, j ≤ k → k ≤ j + m → obs k ≠ opEnabled) →
      (∀ k, j ≤ k → k < j + m → tm k ≤ deadline) →
      deadline < tm (j + m) →
      pollLoop obs tm deadline (m + 1) j = some (PollResult.timeoutRaise (j + m)) := by
  intro m
  induction m with
  | zero =>
    intro j hobs htm hlt
    have hlt' : deadline < tm j := by simpa using hlt
    show (if obs j = opEnabled then some (PollResult.success j)
          else if deadline < tm j then some (PollResult.timeoutRaise j)
          else pollLoop obs tm deadline 0 (j + 1)) =
        some (PollResult.timeoutRaise (j + 0))
    rw [if_neg (hobs j le_rfl (by omega)), if_pos hlt']
    rfl
  | succ m ih =>
    intro j hobs htm hlt
    have h1 : obs j ≠ opEnabled := hobs j le_rfl (by omega)
    have h2 : ¬ deadline < tm j := by
      have := htm j le_rfl (by omega)
      omega
    have hrec := ih (j + 1)
      (fun k hk1 hk2 => hobs k (by omega) (by omega))
      (fun k hk1 hk2 => htm k (by omega) (by omega))
      (by have : j + 1 + m = j + (m + 1) := by omega
          rw [this]; exact hlt)
    have hidx : j + 1 + m = j + (m + 1) := by omega
    rw [hidx] at hrec
    show (if obs j = opEnabled then some (PollResult.success j)
          else if deadline < tm j then some (PollResult.timeoutRaise j)
          else pollLoop obs tm deadline (m + 1) (j + 1)) =
        some (PollResult.timeoutRaise (j + (m + 1)))
    rw [if_neg h1, if_neg h2, hrec]

theorem strictMono_nat_self_le (f : ℕ → ℕ) (hf : StrictMono f) : ∀ n, n ≤ f n := by
  intro n
  induction n with
  | zero => exact Nat.zero_le _
  | succ n ih => exact Nat.succ_le_of_lt (lt_of_le_of_lt ih (hf (Nat.lt_succ_self n)))

theorem enableList_goodPrefix (net : Network) (env : EnableEnv) (f : ℕ)
    (tail : List PyVal) :
    ∀ goodIds : List Int,
      (∀ g ∈ goodIds, g ∈ net.nodes ∧ env.obs g 0 = opEnabled) →
      enableList net env (f + 1) (goodIds.map PyVal.int ++ tail) =
        match enableList net env (f + 1) tail with
        | none => none
        | some (Except.error e) => some (Except.error e)
        | some (Except.ok ps) =>
            some (Except.ok ((goodIds.map fun g => (g, opEnabled)) ++ ps)) := by
  intro goodIds
  induction goodIds with
  | nil =>
    intro _
    simp only [List.map_nil, List.nil_append]
    cases h : enableList net env (f + 1) tail with
    | none => rfl
    | some r => cases r with
      | error e => rfl
      | ok ps => rfl
  | cons g gs ih =>
    intro hgood
    have hg := hgood g (List.mem_cons_self _ _)
    have hnode : enableNode net env (f + 1) (PyVal.int g) =
        some (Except.ok (g, opEnabled)) := by
      simp [enableNode, hg.1, pollLoop_success_at _ _ _ _ _ hg.2, hg.2]
    have ihh := ih (fun x hx => hgood x (List.mem_cons_of_mem _ hx))
    cases htail : enableList net env (f + 1) tail with
    | none =>
      have ihh2 : enableList net env (f + 1) (List.map PyVal.int gs ++ tail) = none := by
        rw [ihh, htail]
      simp [enableList, hnode, ihh2]
    | some r =>
      cases r with
      | error e =>
        have ihh2 : enableList net env (f + 1) (List.map PyVal.int gs ++ tail) =
            some (Except.error e) := by
          rw [ihh, htail]
        simp [enableList, hnode, ihh2]
      | ok ps =>
        have ihh2 : enableList net env (f + 1) (List.map PyVal.int gs ++ tail) =
            some (Except.ok (List.map (fun x => (x, opEnabled)) gs ++ ps)) := by
          rw [ihh, htail]
        simp [enableList, hnode, ihh2]

/-- C5: for every batch of node ids in the active session whose observed
operational state is already OPERATION ENABLED at the first check of the
wait loop (transition completed within one poll interval of the request),
`enableOperation` returns success, and the recorded operational state of
each such node at loop exit — what the Registry reflects — is
OPERATION ENABLED. -/
theorem C5_immediateEnable (net : Network) (env : EnableEnv) (ids : List Int)
    (fuel : ℕ) (hfuel : 1 ≤ fuel)
    (hgood : ∀ g ∈ ids, g ∈ net.nodes ∧ env.obs g 0 = opEnabled) :
    enableOperation net env fuel (PyArg.list (ids.map PyVal.int)) =
      some (Except.ok (ids.map fun g => (g, opEnabled))) := by
  obtain ⟨f, rfl⟩ : ∃ f, fuel = f + 1 := ⟨fuel - 1, by omega⟩
  have h := enableList_goodPrefix net env f [] ids hgood
  simp only [enableList] at h
  simpa [enableOperation] using h

/-- C5 witness: node 2 of the session is OPERATION ENABLED at the first
check; `enableOperation` succeeds and records the enabled state. -/
theorem C5_immediateEnable_witness :
    enableOperation wNet gEnv 1 (PyArg.list [PyVal.int 2]) =
      some (Except.ok [(2, opEnabled)]) :=
  C5_immediateEnable wNet gEnv [2] 1 (by decide) (by decide)

/-- C4: `enableOperation` never blocks indefinitely on a node of the
session that never reaches OPERATION ENABLED.  Under the timing model —
check times strictly increase, consecutive checks are at most one poll
interval (1 ms = 1000 us) apart, and the first check happens within one
poll interval of the `time.time()` reading used to compute the 15 s
deadline — the call (after any prefix of nodes that enable immediately)
terminates with the state-transition-timeout exception for that node, and
the raise happens at the first check past the deadline: strictly later than
the deadline and no later than the deadline plus one poll interval. -/
theorem C4_timeoutBound (net : Network) (env : EnableEnv) (id : Int)
    (goodIds : List Int)
    (hmem : id ∈ net.nodes)
    (hobs : ∀ k, env.obs id k ≠ opEnabled)
    (hmono : StrictMono (env.tm id))
    (hgap : ∀ k, env.tm id (k + 1) ≤ env.tm id k + pollIntervalUs)
    (h0 : env.tm id 0 ≤ env.tStart id + pollIntervalUs)
    (hgood : ∀ g ∈ goodIds, g ∈ net.nodes ∧ env.obs g 0 = opEnabled) :
    ∃ fuel n : ℕ,
      enableOperation net env fuel
          (PyArg.list (goodIds.map PyVal.int ++ [PyVal.int id])) =
        some (Except.error (PyErr.stateTransitionTimeout id)) ∧
      pollLoop (env.obs id) (env.tm id) (env.tStart id + deadlineUs) fuel 0 =
        some (PollResult.timeoutRaise n) ∧
      env.tStart id + deadlineUs < env.tm id n ∧
      env.tm id n ≤ env.tStart id + deadlineUs + pollIntervalUs := by
  set deadline := env.tStart id + deadlineUs with hdl
  have hex : ∃ N, deadline < env.tm id N := by
    refine ⟨deadline + 1, ?_⟩
    have := strictMono_nat_self_le (env.tm id) hmono (deadline + 1)
    omega
  set n := Nat.find hex with hn
  have hspec : deadline < env.tm id n := Nat.find_spec hex
  have hmin : ∀ k, k < n → env.tm id k ≤ deadline := by
    intro k hk
    have := Nat.find_min hex hk
    omega
  have hpoll : pollLoop (env.obs id) (env.tm id) deadline (n + 1) 0 =
      some (PollResult.timeoutRaise n) := by
    have := pollLoop_timeout_aux (env.obs id) (env.tm id) deadline n 0
      (fun k _ _ => hobs k) (fun k _ hk => hmin k (by omega)) (by simpa using hspec)
    simpa using this
  have hupper : env.tm id n ≤ deadline + pollIntervalUs := by
    cases hcase : n with
    | zero =>
      have : env.tStart id ≤ deadline := by rw [hdl]; omega
      have h00 := h0
      omega
    | succ m =>
      have h1 : env.tm id m ≤ deadline := hmin m (by omega)
      have h2 := hgap m
      omega
  have hnodeBad : enableNode net env (n + 1) (PyVal.int id) =
      some (Except.error (PyErr.stateTransitionTimeout id)) := by
    simp [enableNode, hmem, ← hdl, hpoll]
  have htail : enableList net env (n + 1) [PyVal.int id] =
      some (Except.error (PyErr.stateTransitionTimeout id)) := by
    simp [enableList, hnodeBad]
  have hall := enableList_goodPrefix net env n [PyVal.int id] goodIds hgood
  rw [htail] at hall
  exact ⟨n + 1, n, by simpa [enableOperation] using hall, hpoll, hspec, hupper⟩

/-- C4 witness: node 2 of the session never leaves SWITCHED ON; with checks
every 1 ms from time 0, `enableOperation([2])` raises the timeout exception
at a check time strictly past the 15 s deadline and at most 1 ms past it. -/
theorem C4_timeoutBound_witness :
    ∃ fuel n : ℕ,
      enableOperation wNet wEnv fuel (PyArg.list [PyVal.int 2]) =
        some (Except.error (PyErr.stateTransitionTimeout 2)) ∧
      pollLoop (wEnv.obs 2) (wEnv.tm 2) (wEnv.tStart 2 + deadlineUs) fuel 0 =
        some (PollResult.timeoutRaise n) ∧
      wEnv.tStart 2 + deadlineUs < wEnv.tm 2 n ∧
      wEnv.tm 2 n ≤ wEnv.tStart 2 + deadlineUs + pollIntervalUs :=
  C4_timeoutBound wNet wEnv 2 [] (by decide)
    (fun k => by simp [wEnv, opEnabled])
    (fun a b hab => by simp only [wEnv]; omega)
    (fun k => by simp only [wEnv, pollIntervalUs]; omega)
    (by decide)
    (fun g hg => absurd hg (List.not_mem_nil g))

end ZLAC
